import Mathlib

/-!
Verification of the ETVR eye-tracker core (`src/openxr-api-layer/ETVR.cpp`).

Shallow embedding: single-precision floats are modelled as real numbers,
`std::optional<float>` as `Option ℝ`, and monotonic-clock time points as
integer nanosecond counts.  `ProcessMessage` is modelled as a pure state
transformer over the aggregator state; an OSC datagram is modelled by the
`OscMsg` type, with one constructor per recognized address pattern, one for
well-formed messages with an unrecognized address pattern, and one for
malformed datagrams (whose decoding throws `osc::Exception`, caught at the
bottom of `ProcessMessage` so that the state is left untouched: every
assignment to a member field in the source occurs after the extraction that
can throw).
-/

namespace ETVR

/-- `XrVector3f`: a 3-component vector, float components modelled as reals. -/
structure XrVector3f where
  x : ℝ
  y : ℝ
  z : ℝ

/-- The aggregator state of `ETVREyeTracker`: the last combined gaze vector
`m_latestGaze` (zero-initialized), the three optional channel samples
`m_latestLeftX`, `m_latestRightX`, `m_latestY`, and the freshness timestamp
`m_lastReceivedTime` (value-initialized, i.e. the clock epoch = 0 ns). -/
structure ETVRState where
  latestGaze : XrVector3f
  latestLeftX : Option ℝ
  latestRightX : Option ℝ
  latestY : Option ℝ
  lastReceivedTime : ℤ

/-- The state of a freshly constructed `ETVREyeTracker`. -/
def initETVRState : ETVRState :=
  { latestGaze := ⟨0, 0, 0⟩
    latestLeftX := none
    latestRightX := none
    latestY := none
    lastReceivedTime := 0 }

/-- A received OSC datagram, as seen by `ProcessMessage`:
* `eyesY v` — address pattern `/avatar/parameters/EyesY` with one float `v`;
* `leftEyeX v` — address pattern `/avatar/parameters/LeftEyeX` with one float;
* `rightEyeX v` — address pattern `/avatar/parameters/RightEyeX` with one float;
* `unrecognized p` — a well-formed message with any other address pattern `p`;
* `malformed p` — a datagram whose decoding throws `osc::Exception` (wrong
  argument type or count, corrupt encoding). -/
inductive OscMsg where
  | eyesY (v : ℝ)
  | leftEyeX (v : ℝ)
  | rightEyeX (v : ℝ)
  | unrecognized (p : String)
  | malformed (p : String)

/-- The combination step at lines 129-137 of `ETVR.cpp`:
`angleHorizontal = -(R*π/4 + L*π/4)/2`, `angleVertical = V*π/4`,
vector `(sin aH * cos aV, sin aV, -cos aH * cos aV)`. -/
noncomputable def combineGaze (xL xR y : ℝ) : XrVector3f :=
  let angleHorizontal : ℝ := -(xR * Real.pi / 4 + xL * Real.pi / 4) / 2
  let angleVertical : ℝ := y * Real.pi / 4
  { x := Real.sin angleHorizontal * Real.cos angleVertical
    y := Real.sin angleVertical
    z := -(Real.cos angleHorizontal * Real.cos angleVertical) }

/-- The three pattern-dispatch `if` blocks of `ProcessMessage` (lines 88-123):
a recognized message stores its float into the matching channel sample; an
unrecognized message touches nothing.  (The `malformed` case is handled by the
caller: the throw aborts the whole `try` block before any assignment.) -/
def updateChannels (s : ETVRState) (m : OscMsg) : ETVRState :=
  match m with
  | .eyesY v => { s with latestY := some v }
  | .leftEyeX v => { s with latestLeftX := some v }
  | .rightEyeX v => { s with latestRightX := some v }
  | .unrecognized _ => s
  | .malformed _ => s

/-- The guard of the combination block (line 127): optional truthiness of
`m_latestY && m_latestLeftX && m_latestRightX`. -/
def allPresent (s : ETVRState) : Bool :=
  s.latestY.isSome && s.latestLeftX.isSome && s.latestRightX.isSome

/-- The combination block of `ProcessMessage` (lines 127-146): when all three
channel samples are present, the gaze is combined from the dereferenced
optionals, `m_lastReceivedTime` is set to `now`, and the resets at lines
143-145 run: `m_latestLeftX.reset()` twice and `m_latestRightX.reset()`
once — `m_latestY` is never reset. -/
noncomputable def checkCombine (s1 : ETVRState) (now : ℤ) : ETVRState :=
  if h : allPresent s1 = true then
    { s1 with
        latestGaze :=
          combineGaze
            (s1.latestLeftX.get (by
              simp only [allPresent, Bool.and_eq_true] at h
              exact h.1.2))
            (s1.latestRightX.get (by
              simp only [allPresent, Bool.and_eq_true] at h
              exact h.2))
            (s1.latestY.get (by
              simp only [allPresent, Bool.and_eq_true] at h
              exact h.1.1))
        lastReceivedTime := now
        latestLeftX := none
        latestRightX := none }
  else s1

/-- `ETVREyeTracker::ProcessMessage` (lines 82-152) as a state transformer;
`now` is the value of `high_resolution_clock::now()` taken at entry.  A
malformed datagram throws during decoding before any member assignment, so
the `catch` at line 149 leaves the state unchanged.  Otherwise the matching
channel (if any) is updated and the combination block runs. -/
noncomputable def ProcessMessage (s : ETVRState) (m : OscMsg) (now : ℤ) : ETVRState :=
  match m with
  | .malformed _ => s
  | _ => checkCombine (updateChannels s m) now

/-- Processing a sequence of datagrams, each with the clock value observed at
its arrival. -/
noncomputable def processAll (s : ETVRState) (ms : List (OscMsg × ℤ)) : ETVRState :=
  ms.foldl (fun t p => ProcessMessage t p.1 p.2) s

/-- `XrTime`: the (ignored) OpenXR time argument of the polling interface. -/
abbrev XrTime := ℤ

/-- `ETVREyeTracker::isGazeAvailable` (lines 60-66): takes the clock value
`now`, locks the mutex, and returns whether `now - m_lastReceivedTime` is
below one second (1 000 000 000 ns).  The `time` argument is never read. -/
def isGazeAvailable (s : ETVRState) (time : XrTime) (now : ℤ) : Bool :=
  decide (now - s.lastReceivedTime < 1000000000)

/-- `ETVREyeTracker::getGaze` (lines 68-76), with the caller's `unitVector`
variable passed in explicitly: if `isGazeAvailable` is false the function
returns `false` and does not write `unitVector`; otherwise it copies
`m_latestGaze` into it and returns `true`.  The resulting aggregator state is
returned as well (the source mutates no member field here). -/
def getGaze (s : ETVRState) (time : XrTime) (now : ℤ) (unitVector : XrVector3f) :
    Bool × XrVector3f × ETVRState :=
  if isGazeAvailable s time now then (true, s.latestGaze, s) else (false, unitVector, s)

/-! Session lifecycle model: `m_started` and the background listening thread.
`start` (lines 52-55) spawns the listening thread and sets `m_started`;
`stop` (lines 57-58) has an empty body; the destructor (lines 45-50) calls
`AsynchronousBreak` and joins the thread only when `m_started` is set. -/

/-- Lifecycle state of one tracker instance: the `m_started` flag and whether
the background listening thread is currently running. -/
structure SessionState where
  started : Bool
  threadRunning : Bool
  deriving DecidableEq

/-- `ETVREyeTracker::start` (lines 52-55): spawns the listening thread, then
sets `m_started = true`. -/
def start (s : SessionState) : SessionState :=
  { s with threadRunning := true, started := true }

/-- `ETVREyeTracker::stop` (lines 57-58): the body is empty. -/
def stop (s : SessionState) : SessionState :=
  s

/-- `ETVREyeTracker::~ETVREyeTracker` (lines 45-50): when `m_started`, calls
`m_socket.AsynchronousBreak()` and joins the listening thread, after which the
thread no longer runs. -/
def destructor (s : SessionState) : SessionState :=
  if s.started then { s with threadRunning := false } else s

/-! Lock-discipline model: each member-field access performed by
`ProcessMessage` and by the polling interface, in program order, tagged with
whether `m_mutex` is held at that point.  The `unique_lock` in
`ProcessMessage` is acquired at line 139, before the writes to `m_latestGaze`
and `m_lastReceivedTime` and the three `reset()` calls, and released at the
end of that block; the channel-sample stores at lines 94, 106 and 118 happen
before it is acquired.  `isGazeAvailable` reads `m_lastReceivedTime` under
the lock (lines 63-64) and `getGaze` copies `m_latestGaze` under the lock
(lines 73-74). -/

/-- The shared member fields of the aggregator. -/
inductive Field where
  | chanY
  | chanL
  | chanR
  | gazeVec
  | timeStamp
  deriving DecidableEq

/-- One access to a shared field: which field, whether it is a write, and
whether `m_mutex` is held while it executes. -/
structure MemAccess where
  field : Field
  isWrite : Bool
  locked : Bool
  deriving DecidableEq

/-- The sequence of shared-field accesses performed by one call to
`ProcessMessage` on state `s` with datagram `m`.  A malformed datagram throws
before any member-field assignment, so it performs no access; a recognized
message stores its channel sample without the lock; when the combination
fires, the gaze write, the timestamp write and the resets (`m_latestLeftX`
twice, `m_latestRightX` once) all run under the lock. -/
def processTrace (s : ETVRState) (m : OscMsg) : List MemAccess :=
  match m with
  | .malformed _ => []
  | _ =>
    let channelWrites : List MemAccess :=
      match m with
      | .eyesY _ => [⟨.chanY, true, false⟩]
      | .leftEyeX _ => [⟨.chanL, true, false⟩]
      | .rightEyeX _ => [⟨.chanR, true, false⟩]
      | _ => []
    let combineWrites : List MemAccess :=
      if allPresent (updateChannels s m) then
        [⟨.gazeVec, true, true⟩, ⟨.timeStamp, true, true⟩,
         ⟨.chanL, true, true⟩, ⟨.chanL, true, true⟩, ⟨.chanR, true, true⟩]
      else []
    channelWrites ++ combineWrites

/-- The sequence of shared-field accesses performed by one call to `getGaze`:
the `isGazeAvailable` call reads `m_lastReceivedTime` under the lock, and when
it returns true the gaze vector is copied under the lock. -/
def getGazeTrace (s : ETVRState) (time : XrTime) (now : ℤ) : List MemAccess :=
  ⟨.timeStamp, false, true⟩ ::
    (if isGazeAvailable s time now then [⟨.gazeVec, false, true⟩] else [])

/-- Checks that every access to the gaze vector or to the freshness timestamp
in a trace is performed with the mutex held. -/
def lockedOnGazeFields (t : List MemAccess) : Bool :=
  t.all fun a =>
    match a.field with
    | Field.gazeVec => a.locked
    | Field.timeStamp => a.locked
    | _ => true

/-! Helper lemmas. -/

theorem updateChannels_latestGaze (s : ETVRState) (m : OscMsg) :
    (updateChannels s m).latestGaze = s.latestGaze := by
  cases m <;> rfl

theorem updateChannels_lastReceivedTime (s : ETVRState) (m : OscMsg) :
    (updateChannels s m).lastReceivedTime = s.lastReceivedTime := by
  cases m <;> rfl

theorem checkCombine_of_not_allPresent (s1 : ETVRState) (now : ℤ)
    (h : allPresent s1 = false) : checkCombine s1 now = s1 := by
  unfold checkCombine
  rw [dif_neg]
  simp [h]

theorem checkCombine_of_some (s1 : ETVRState) (now : ℤ) (y l r : ℝ)
    (hy : s1.latestY = some y) (hl : s1.latestLeftX = some l)
    (hr : s1.latestRightX = some r) :
    checkCombine s1 now =
      { s1 with
          latestGaze := combineGaze l r y
          lastReceivedTime := now
          latestLeftX := none
          latestRightX := none } := by
  have hall : allPresent s1 = true := by simp [allPresent, hy, hl, hr]
  unfold checkCombine
  rw [dif_pos hall]
  simp [hy, hl, hr]

theorem ProcessMessage_not_malformed (s : ETVRState) (m : OscMsg) (now : ℤ)
    (hm : ∀ p, m ≠ OscMsg.malformed p) :
    ProcessMessage s m now = checkCombine (updateChannels s m) now := by
  cases m with
  | eyesY v => rfl
  | leftEyeX v => rfl
  | rightEyeX v => rfl
  | unrecognized p => rfl
  | malformed p => exact absurd rfl (hm p)

/-! Claim theorems. -/

/-- C1: whenever a processed (non-throwing) datagram leaves all three channel
samples present with values `L`, `R`, `V`, the combination step stores exactly
the gaze vector with `angleHorizontal = -(R*(pi/4) + L*(pi/4))/2`,
`angleVertical = V*(pi/4)`, `x = sin aH * cos aV`, `y = sin aV`,
`z = -cos aH * cos aV`, with no alternative branch or configuration. -/
theorem combination_formula_exact (s : ETVRState) (m : OscMsg) (now : ℤ) (y l r : ℝ)
    (hm : ∀ p, m ≠ OscMsg.malformed p)
    (hy : (updateChannels s m).latestY = some y)
    (hl : (updateChannels s m).latestLeftX = some l)
    (hr : (updateChannels s m).latestRightX = some r) :
    (ProcessMessage s m now).latestGaze =
      { x := Real.sin (-(r * (Real.pi / 4) + l * (Real.pi / 4)) / 2) *
             Real.cos (y * (Real.pi / 4))
        y := Real.sin (y * (Real.pi / 4))
        z := -(Real.cos (-(r * (Real.pi / 4) + l * (Real.pi / 4)) / 2) *
               Real.cos (y * (Real.pi / 4))) } := by
  rw [ProcessMessage_not_malformed s m now hm,
    checkCombine_of_some _ _ y l r hy hl hr]
  have h1 : -(r * Real.pi / 4 + l * Real.pi / 4) / 2 =
      -(r * (Real.pi / 4) + l * (Real.pi / 4)) / 2 := by ring
  have h2 : y * Real.pi / 4 = y * (Real.pi / 4) := by ring
  simp only [combineGaze, h1, h2]

/-- Witness for C1 at the concrete state where `EyesY 0` and `LeftEyeX 0`
have arrived and the datagram `RightEyeX 1` completes the triple. -/
theorem combination_formula_exact_witness :
    (∀ p, OscMsg.rightEyeX (1 : ℝ) ≠ OscMsg.malformed p) ∧
    (ProcessMessage { initETVRState with latestY := some 0, latestLeftX := some 0 }
        (OscMsg.rightEyeX 1) 5).latestGaze =
      { x := Real.sin (-((1:ℝ) * (Real.pi / 4) + 0 * (Real.pi / 4)) / 2) *
             Real.cos ((0:ℝ) * (Real.pi / 4))
        y := Real.sin ((0:ℝ) * (Real.pi / 4))
        z := -(Real.cos (-((1:ℝ) * (Real.pi / 4) + 0 * (Real.pi / 4)) / 2) *
               Real.cos ((0:ℝ) * (Real.pi / 4))) } :=
  ⟨fun _ h => OscMsg.noConfusion h,
    combination_formula_exact _ _ _ 0 0 1 (fun _ h => OscMsg.noConfusion h) rfl rfl rfl⟩

/-- C7: for all channel values in `[-1, 1]` (in fact for all reals), the
combined gaze vector has squared magnitude exactly 1, with no
renormalization step. -/
theorem gaze_unit_norm (l r v : ℝ) (hl1 : -1 ≤ l) (hl2 : l ≤ 1) (hr1 : -1 ≤ r)
    (hr2 : r ≤ 1) (hv1 : -1 ≤ v) (hv2 : v ≤ 1) :
    (combineGaze l r v).x ^ 2 + (combineGaze l r v).y ^ 2 +
      (combineGaze l r v).z ^ 2 = 1 := by
  simp only [combineGaze]
  have h1 := Real.sin_sq_add_cos_sq (-(r * Real.pi / 4 + l * Real.pi / 4) / 2)
  have h2 := Real.sin_sq_add_cos_sq (v * Real.pi / 4)
  linear_combination Real.cos (v * Real.pi / 4) ^ 2 * h1 + h2

/-- Witness for C7 at `L = R = V = 0`. -/
theorem gaze_unit_norm_witness :
    ((-1 ≤ (0:ℝ)) ∧ ((0:ℝ) ≤ 1)) ∧
    (combineGaze 0 0 0).x ^ 2 + (combineGaze 0 0 0).y ^ 2 +
      (combineGaze 0 0 0).z ^ 2 = 1 :=
  ⟨⟨by norm_num, by norm_num⟩,
    gaze_unit_norm 0 0 0 (by norm_num) (by norm_num) (by norm_num) (by norm_num)
      (by norm_num) (by norm_num)⟩

/-- C2 (the code at the failing input): feeding the three recognized messages
exactly once each from the initial state does combine — the freshness
timestamp is set to the arrival time of the completing message — and clears
the left and right samples, but the vertical sample `m_latestY` is NOT
cleared: lines 143-145 reset `m_latestLeftX` twice and never reset
`m_latestY`. -/
theorem triple_leaves_vertical_present :
    (processAll initETVRState
      [(OscMsg.eyesY 0, 1), (OscMsg.leftEyeX 0, 2), (OscMsg.rightEyeX 0, 3)]).latestY
        = some 0 ∧
    (processAll initETVRState
      [(OscMsg.eyesY 0, 1), (OscMsg.leftEyeX 0, 2), (OscMsg.rightEyeX 0, 3)]).latestLeftX
        = none ∧
    (processAll initETVRState
      [(OscMsg.eyesY 0, 1), (OscMsg.leftEyeX 0, 2), (OscMsg.rightEyeX 0, 3)]).latestRightX
        = none ∧
    (processAll initETVRState
      [(OscMsg.eyesY 0, 1), (OscMsg.leftEyeX 0, 2), (OscMsg.rightEyeX 0, 3)]).lastReceivedTime
        = 3 :=
  ⟨rfl, rfl, rfl, rfl⟩

/-- C9: after a successful combination the vertical sample stays present with
its old value, so one new `LeftEyeX` message followed by one new `RightEyeX`
message — with no new `EyesY` — triggers another combination that reuses the
previously received vertical value. -/
theorem vertical_persists_retrigger (y l r l2 r2 : ℝ) (t1 t2 t3 t4 t5 : ℤ) :
    (processAll initETVRState
      [(OscMsg.eyesY y, t1), (OscMsg.leftEyeX l, t2), (OscMsg.rightEyeX r, t3)]).latestY
        = some y ∧
    (processAll initETVRState
      [(OscMsg.eyesY y, t1), (OscMsg.leftEyeX l, t2), (OscMsg.rightEyeX r, t3)]).lastReceivedTime
        = t3 ∧
    (ProcessMessage (ProcessMessage (processAll initETVRState
        [(OscMsg.eyesY y, t1), (OscMsg.leftEyeX l, t2), (OscMsg.rightEyeX r, t3)])
        (OscMsg.leftEyeX l2) t4) (OscMsg.rightEyeX r2) t5).latestGaze
        = combineGaze l2 r2 y ∧
    (ProcessMessage (ProcessMessage (processAll initETVRState
        [(OscMsg.eyesY y, t1), (OscMsg.leftEyeX l, t2), (OscMsg.rightEyeX r, t3)])
        (OscMsg.leftEyeX l2) t4) (OscMsg.rightEyeX r2) t5).lastReceivedTime
        = t5 :=
  ⟨rfl, rfl, rfl, rfl⟩

/-- C10: a processed message that does not leave all three channel samples
present leaves the stored gaze vector and the freshness timestamp unchanged:
the caller-visible gaze state changes only when a complete triple is
combined. -/
theorem no_combination_no_gaze_change (s : ETVRState) (m : OscMsg) (now : ℤ)
    (h : allPresent (updateChannels s m) = false) :
    (ProcessMessage s m now).latestGaze = s.latestGaze ∧
    (ProcessMessage s m now).lastReceivedTime = s.lastReceivedTime := by
  by_cases hm : ∃ p, m = OscMsg.malformed p
  · obtain ⟨p, rfl⟩ := hm
    exact ⟨rfl, rfl⟩
  · have hm2 : ∀ p, m ≠ OscMsg.malformed p := fun p hp => hm ⟨p, hp⟩
    rw [ProcessMessage_not_malformed s m now hm2,
      checkCombine_of_not_allPresent _ _ h]
    exact ⟨updateChannels_latestGaze s m, updateChannels_lastReceivedTime s m⟩

/-- Witness for C10: a first `EyesY` message from the initial state completes
no triple and leaves the gaze vector and timestamp untouched. -/
theorem no_combination_no_gaze_change_witness :
    allPresent (updateChannels initETVRState (OscMsg.eyesY 0)) = false ∧
    ((ProcessMessage initETVRState (OscMsg.eyesY 0) 7).latestGaze =
        initETVRState.latestGaze ∧
      (ProcessMessage initETVRState (OscMsg.eyesY 0) 7).lastReceivedTime =
        initETVRState.lastReceivedTime) :=
  ⟨rfl, no_combination_no_gaze_change initETVRState (OscMsg.eyesY 0) 7 rfl⟩

/-- C3 counterexample: in the initial state — before any message and hence
before any triple has completed or any gaze vector was produced —
`isGazeAvailable` already returns `true` when the monotonic clock reads less
than one second past its epoch (here `now = 0` ns): the code only compares
`now` against the value-initialized `m_lastReceivedTime` and never checks
that a gaze vector was ever produced.  The claim requires `false` here. -/
theorem isGazeAvailable_true_at_init :
    isGazeAvailable initETVRState 0 0 = true := by
  decide

/-- C3 amended: `isGazeAvailable` returns true iff the elapsed time since
`m_lastReceivedTime` is below one second, where `m_lastReceivedTime` is the
freshness timestamp of the last combination, or the clock epoch if no
combination has occurred yet; the result is independent of the `time`
argument. -/
theorem isGazeAvailable_iff_elapsed (s : ETVRState) (t t2 : XrTime) (now : ℤ) :
    (isGazeAvailable s t now = true ↔ now - s.lastReceivedTime < 1000000000) ∧
    isGazeAvailable s t now = isGazeAvailable s t2 now :=
  ⟨by simp [isGazeAvailable], rfl⟩

/-- C4: `getGaze` returns false and leaves the caller's vector untouched when
`isGazeAvailable` is false at call time; otherwise it returns true together
with a copy of the stored gaze vector; in both cases the aggregator state is
unchanged. -/
theorem getGaze_spec (s : ETVRState) (t : XrTime) (now : ℤ) (uv : XrVector3f) :
    (getGaze s t now uv).2.2 = s ∧
    (if isGazeAvailable s t now then
        (getGaze s t now uv).1 = true ∧ (getGaze s t now uv).2.1 = s.latestGaze
      else
        (getGaze s t now uv).1 = false ∧ (getGaze s t now uv).2.1 = uv) := by
  cases h : isGazeAvailable s t now <;> simp [getGaze, h]

theorem allPresent_checkCombine (s1 : ETVRState) (now : ℤ) :
    allPresent (checkCombine s1 now) = false := by
  unfold checkCombine
  by_cases hall : allPresent s1 = true
  · rw [dif_pos hall]
    simp [allPresent]
  · rw [dif_neg hall]
    simp only [Bool.not_eq_true] at hall
    exact hall

theorem allPresent_ProcessMessage (s : ETVRState) (m : OscMsg) (now : ℤ)
    (h : allPresent s = false) : allPresent (ProcessMessage s m now) = false := by
  by_cases hm : ∃ p, m = OscMsg.malformed p
  · obtain ⟨p, rfl⟩ := hm
    exact h
  · have hm2 : ∀ p, m ≠ OscMsg.malformed p := fun p hp => hm ⟨p, hp⟩
    rw [ProcessMessage_not_malformed s m now hm2]
    exact allPresent_checkCombine _ _

/-- Invariant: between datagrams, the three channel samples are never all
present — the combination block consumed any completed triple. -/
theorem allPresent_processAll (s : ETVRState) (ms : List (OscMsg × ℤ))
    (h : allPresent s = false) : allPresent (processAll s ms) = false := by
  induction ms generalizing s with
  | nil => exact h
  | cons hd tl ih => exact ih _ (allPresent_ProcessMessage s hd.1 hd.2 h)

/-- C5: in any state the tracker can reach by processing datagrams from the
initial state, a malformed datagram (its decoding throws, so the `catch` at
line 149 absorbs the error) and a well-formed datagram with an unrecognized
address pattern both leave the whole aggregator state unchanged — no channel
sample, no gaze vector, no freshness timestamp — and `ProcessMessage` being
total, no error reaches the listening task, which proceeds to the next
datagram. -/
theorem bad_datagram_no_change (ms : List (OscMsg × ℤ)) (now : ℤ) (p q : String) :
    ProcessMessage (processAll initETVRState ms) (OscMsg.malformed p) now =
      processAll initETVRState ms ∧
    ProcessMessage (processAll initETVRState ms) (OscMsg.unrecognized q) now =
      processAll initETVRState ms := by
  have hinv : allPresent (processAll initETVRState ms) = false :=
    allPresent_processAll initETVRState ms rfl
  refine ⟨rfl, ?_⟩
  rw [ProcessMessage_not_malformed _ _ _ (fun r hr => OscMsg.noConfusion hr)]
  exact checkCombine_of_not_allPresent _ _ hinv

/-- C6 counterexample: `stop()` has an empty body (lines 57-58), so calling
it on a started tracker leaves the background listening thread running: it
neither breaks the receive loop nor joins the task, contrary to the claim
that no decoder or aggregator code executes after `stop()` returns. -/
theorem stop_leaves_thread_running :
    (stop { started := true, threadRunning := true }).threadRunning = true :=
  rfl

/-- C6 amended: destruction of a started tracker issues the asynchronous
break and joins the listening thread, after which the background task no
longer runs; `stop()` itself performs no action at all. -/
theorem destructor_joins (s : SessionState) (h : s.started = true) :
    (destructor s).threadRunning = false ∧ stop s = s := by
  refine ⟨?_, rfl⟩
  unfold destructor
  rw [if_pos h]

/-- Witness for C6 (amended) on a started tracker. -/
theorem destructor_joins_witness :
    ({ started := true, threadRunning := true } : SessionState).started = true ∧
    ((destructor { started := true, threadRunning := true }).threadRunning = false ∧
      stop { started := true, threadRunning := true } =
        ({ started := true, threadRunning := true } : SessionState)) :=
  ⟨rfl, destructor_joins { started := true, threadRunning := true } rfl⟩

/-- C8 counterexample: processing an `EyesY` datagram stores the vertical
channel sample while the mutex is NOT held — the store at line 94 precedes
the `unique_lock` at line 139 — refuting the claim that every write to the
three channel samples is serialized by the shared mutex. -/
theorem channel_write_unlocked :
    (⟨Field.chanY, true, false⟩ : MemAccess) ∈
      processTrace initETVRState (OscMsg.eyesY 0) :=
  List.Mem.head _

/-- C8 amended: every access to the gaze vector and to the freshness
timestamp — the combination-step writes and resets in `ProcessMessage`, and
the polling reads in `isGazeAvailable`/`getGaze` — occurs with the mutex
held, so the polling caller never observes a torn vector; only the initial
channel-sample stores of `ProcessMessage` happen outside the lock (they are
touched by the listener task alone). -/
theorem gaze_accesses_locked (s : ETVRState) (m : OscMsg) (t : XrTime) (now : ℤ) :
    lockedOnGazeFields (processTrace s m) = true ∧
    lockedOnGazeFields (getGazeTrace s t now) = true := by
  constructor
  · cases m <;> simp only [processTrace] <;> first
      | rfl
      | (split <;> rfl)
  · unfold getGazeTrace lockedOnGazeFields
    split <;> rfl

end ETVR
